import Mathlib

/-!
Verification development for `ai-text-tool` (`main.go`): a small HTTP server
with six POST endpoints (summarize, keywords, rewrite, questions, titles,
expand) that forward user text to a chat-completion API and shape the reply
into JSON responses.

The Go code is embedded shallowly:

* `Jval` models the JSON values produced by `writeJSON` (Go `encoding/json`
  marshalling of the response structs); a Go `[]string` is modelled as
  `Option (List String)` where `none` is the nil slice (marshals to JSON
  `null`) and `some xs` a non-nil slice (marshals to a JSON array).
* `unmarshalStringList` models the outcome of Go
  `json.Unmarshal([]byte(s), &xs)` for `xs : []string`: it succeeds exactly
  on (whitespace-padded) JSON `null` (leaving the slice nil) or a JSON array
  whose elements are JSON strings or `null` (a `null` element leaves the
  zero value `""`), and errors otherwise — both on syntactically invalid
  input and on valid JSON of any other shape, matching Go's behaviour where
  either case yields a non-nil error.  String literals follow Go's
  `unquote`: the escapes `\" \\ \/ \b \f \n \r \t \uXXXX`, surrogate pairs
  combined, unpaired surrogates replaced by U+FFFD, unescaped control
  characters rejected.
* `callLLM` is parameterised by `net : ChatRequest → Except String Upstream`,
  the behaviour of `http.DefaultClient.Do` on the marshalled request
  (`.error` = transport failure).  `Upstream.decoded` records the outcome of
  `json.NewDecoder(resp.Body).Decode(&cr)` on the response body; the decoder
  for the full `ChatResponse` shape is not re-implemented, since every
  claim depends only on its outcome.  The `json.Marshal` and
  `http.NewRequest` error branches in the Go code are unreachable for this
  fixed method/URL and string-only payload and are not modelled; the
  `Authorization` and `Content-Type` headers carry `apiKey` but do not
  affect the modelled exchange.
* Handlers receive a `Request α` whose `body` field is the result of
  `json.NewDecoder(r.Body).Decode` (`.malformed` = decode error; a missing
  `text`/`tone` field decodes to the Go zero value `""`).  `http.Error`
  writes the message followed by a newline; server-side logging
  (`log.Println`) has no client-visible effect and is not modelled.
-/

/-- JSON values, as produced by Go `encoding/json` marshalling. -/
inductive Jval where
  | null : Jval
  | bool (b : Bool) : Jval
  | num (n : Int) : Jval
  | str (s : String) : Jval
  | arr (xs : List Jval) : Jval
  | obj (fields : List (String × Jval)) : Jval

/-- Marshalling of a Go `[]string` (`none` = nil slice → `null`). -/
def goStrSliceJson : Option (List String) → Jval
  | none => Jval.null
  | some xs => Jval.arr (xs.map Jval.str)

-- --- OpenAI request/response types (main.go lines 18-34) ---

structure ChatMessage where
  role : String
  content : String
deriving DecidableEq

structure ChatRequest where
  model : String
  messages : List ChatMessage
deriving DecidableEq

structure ChatChoice where
  message : ChatMessage
deriving DecidableEq

structure ChatResponse where
  choices : List ChatChoice
deriving DecidableEq

-- --- API request/response types (main.go lines 38-69) ---

structure TextRequest where
  text : String
deriving DecidableEq

structure RewriteRequest where
  text : String
  tone : String
deriving DecidableEq

structure SummarizeResponse where
  summary : String

/-- Marshalling of `SummarizeResponse` (tag `json:"summary"`). -/
def SummarizeResponse.toJson (r : SummarizeResponse) : Jval :=
  Jval.obj [("summary", Jval.str r.summary)]

/-- `Keywords []string`; `none` models the nil slice. -/
structure KeywordsResponse where
  keywords : Option (List String)

/-- Marshalling of `KeywordsResponse` (tag `json:"keywords"`). -/
def KeywordsResponse.toJson (r : KeywordsResponse) : Jval :=
  Jval.obj [("keywords", goStrSliceJson r.keywords)]

structure RewriteResponse where
  text : String

/-- Marshalling of `RewriteResponse` (tag `json:"text"`). -/
def RewriteResponse.toJson (r : RewriteResponse) : Jval :=
  Jval.obj [("text", Jval.str r.text)]

/-- `Questions []string`; `none` models the nil slice. -/
structure QuestionsResponse where
  questions : Option (List String)

/-- Marshalling of `QuestionsResponse` (tag `json:"questions"`). -/
def QuestionsResponse.toJson (r : QuestionsResponse) : Jval :=
  Jval.obj [("questions", goStrSliceJson r.questions)]

/-- `Titles []string`; `none` models the nil slice. -/
structure TitlesResponse where
  titles : Option (List String)

/-- Marshalling of `TitlesResponse` (tag `json:"titles"`). -/
def TitlesResponse.toJson (r : TitlesResponse) : Jval :=
  Jval.obj [("titles", goStrSliceJson r.titles)]

structure ExpandResponse where
  text : String

/-- Marshalling of `ExpandResponse` (tag `json:"text"`). -/
def ExpandResponse.toJson (r : ExpandResponse) : Jval :=
  Jval.obj [("text", Jval.str r.text)]

-- --- Model of json.Unmarshal into []string (encoding/json) ---

/-- JSON whitespace skipping (space, tab, newline, carriage return). -/
def jsonSkipWs : List Char → List Char
  | c :: cs =>
    if c = ' ' ∨ c = '\t' ∨ c = '\n' ∨ c = '\r' then jsonSkipWs cs else c :: cs
  | [] => []

/-- Value of one hex digit, as in Go `getu4`. -/
def hexDigitVal (c : Char) : Option Nat :=
  if '0' ≤ c ∧ c ≤ '9' then some (c.toNat - '0'.toNat)
  else if 'a' ≤ c ∧ c ≤ 'f' then some (c.toNat - 'a'.toNat + 10)
  else if 'A' ≤ c ∧ c ≤ 'F' then some (c.toNat - 'A'.toNat + 10)
  else none

/-- Four hex digits after `\u`, as in Go `getu4`. -/
def getu4 : List Char → Option (Nat × List Char)
  | a :: b :: c :: d :: rest =>
    match hexDigitVal a, hexDigitVal b, hexDigitVal c, hexDigitVal d with
    | some x, some y, some z, some w =>
      some (((x * 16 + y) * 16 + z) * 16 + w, rest)
    | _, _, _, _ => none
  | _ => none

/-- Body of a JSON string literal after the opening quote, following Go's
scanner and `unquote`: standard escapes, `\uXXXX` with surrogate-pair
combination — per `utf16.DecodeRune` a pair combines only when the first
code unit is in D800–DBFF and the second in DC00–DFFF; otherwise the
surrogate becomes U+FFFD and, as in Go, the lookahead escape is not
consumed — and unescaped control characters rejected.  `fuel` only bounds
recursion; every step consumes input, so `length + 1` fuel never runs out
first. -/
def parseJStr : Nat → List Char → List Char → Option (String × List Char)
  | 0, _, _ => none
  | fuel + 1, acc, cs =>
    match cs with
    | [] => none
    | '"' :: rest => some (String.mk acc.reverse, rest)
    | '\\' :: rest =>
      match rest with
      | '"' :: r => parseJStr fuel ('"' :: acc) r
      | '\\' :: r => parseJStr fuel ('\\' :: acc) r
      | '/' :: r => parseJStr fuel ('/' :: acc) r
      | 'b' :: r => parseJStr fuel ('\x08' :: acc) r
      | 'f' :: r => parseJStr fuel ('\x0c' :: acc) r
      | 'n' :: r => parseJStr fuel ('\n' :: acc) r
      | 'r' :: r => parseJStr fuel ('\x0d' :: acc) r
      | 't' :: r => parseJStr fuel ('\t' :: acc) r
      | 'u' :: r =>
        match getu4 r with
        | none => none
        | some (n, r1) =>
          if 0xD800 ≤ n ∧ n < 0xE000 then
            match r1 with
            | '\\' :: 'u' :: r2 =>
              match getu4 r2 with
              | some (n2, r3) =>
                if n ≤ 0xDBFF ∧ 0xDC00 ≤ n2 ∧ n2 < 0xE000 then
                  parseJStr fuel
                    (Char.ofNat (0x10000 + (n - 0xD800) * 0x400 + (n2 - 0xDC00)) :: acc) r3
                else parseJStr fuel ('�' :: acc) r1
              | none => parseJStr fuel ('�' :: acc) r1
            | _ => parseJStr fuel ('�' :: acc) r1
          else parseJStr fuel (Char.ofNat n :: acc) r1
      | _ => none
    | c :: rest =>
      if c.toNat < 0x20 then none else parseJStr fuel (c :: acc) rest

/-- Elements of a non-empty JSON array decoded into `[]string`: each element
is a JSON string, or `null` (which leaves the Go zero value `""`); anything
else is the error outcome, as in Go where a non-string element yields a
non-nil `UnmarshalTypeError` and invalid syntax a `SyntaxError`.  Positioned
just after `[` or `,`. -/
def parseStrElems : Nat → List String → List Char → Option (List String × List Char)
  | 0, _, _ => none
  | fuel + 1, acc, cs =>
    match jsonSkipWs cs with
    | '"' :: rest =>
      match parseJStr (rest.length + 1) [] rest with
      | none => none
      | some (s, r1) =>
        match jsonSkipWs r1 with
        | ',' :: r3 => parseStrElems fuel (s :: acc) r3
        | ']' :: r3 => some ((s :: acc).reverse, r3)
        | _ => none
    | 'n' :: 'u' :: 'l' :: 'l' :: r1 =>
      match jsonSkipWs r1 with
      | ',' :: r3 => parseStrElems fuel ("" :: acc) r3
      | ']' :: r3 => some (("" :: acc).reverse, r3)
      | _ => none
    | _ => none

/-- Outcome of Go `json.Unmarshal([]byte(s), &xs)` for `var xs []string`:
`.ok none` for JSON `null` (slice left nil), `.ok (some xs)` for a JSON
array, `.error ()` for every input on which Go returns a non-nil error
(invalid syntax, valid JSON of another shape, a non-string non-null array
element, or trailing data). -/
def unmarshalStringList (s : String) : Except Unit (Option (List String)) :=
  match jsonSkipWs s.toList with
  | 'n' :: 'u' :: 'l' :: 'l' :: rest =>
    match jsonSkipWs rest with
    | [] => Except.ok none
    | _ => Except.error ()
  | '[' :: rest =>
    match jsonSkipWs rest with
    | ']' :: r1 =>
      match jsonSkipWs r1 with
      | [] => Except.ok (some [])
      | _ => Except.error ()
    | _ =>
      match parseStrElems (rest.length + 1) [] rest with
      | some (xs, r1) =>
        match jsonSkipWs r1 with
        | [] => Except.ok (some xs)
        | _ => Except.error ()
      | none => Except.error ()
  | _ => Except.error ()

-- --- Outbound LLM client (main.go lines 13-14, 315-356) ---

def openAIURL : String := "https://api.openai.com/v1/chat/completions"

def model : String := "gpt-4o-mini"

/-- The response obtained from `http.DefaultClient.Do`: its status code, its
body as raw text (read by `io.ReadAll` on the error path), and the outcome
of `json.NewDecoder(resp.Body).Decode(&cr)` on that same body (used on the
success path; the error message is carried as a string). -/
structure Upstream where
  statusCode : Nat
  rawBody : String
  decoded : Except String ChatResponse

/-- Behaviour of the network for one exchange: `.error` models a transport
failure returned by `Do`, `.ok` a delivered response. -/
abbrev Net := ChatRequest → Except String Upstream

/-- The error values `callLLM` can return, typed by their source:
`netErr` the transport error from `Do`, `upstreamErr` the
`fmt.Errorf("OpenAI error: status=%d body=%s", ...)` value carrying the
status code and body text, `decodeErr` the `json` decode error, and
`emptyChoices` the `fmt.Errorf("no choices from LLM")` value. -/
inductive LLMErr where
  | netErr (msg : String) : LLMErr
  | upstreamErr (status : Nat) (body : String) : LLMErr
  | decodeErr (msg : String) : LLMErr
  | emptyChoices : LLMErr
deriving DecidableEq

/-- The `ChatRequest` that `callLLM` marshals and sends (main.go 316-322). -/
def buildChatRequest (prompt : String) : ChatRequest :=
  { model := model
    messages :=
      [ { role := "system", content := "You are a helpful text-processing assistant." }
      , { role := "user", content := prompt } ] }

/-- `callLLM` (main.go 315-356): send the built request, fail on a transport
error; on a status ≥ 400 fail with the status and body text; otherwise fail
if the body does not decode or the choice list is empty, else return the
first choice's message content. -/
def callLLM (apiKey : String) (prompt : String) (net : Net) : Except LLMErr String :=
  match net (buildChatRequest prompt) with
  | Except.error e => Except.error (LLMErr.netErr e)
  | Except.ok resp =>
    if resp.statusCode ≥ 400 then
      Except.error (LLMErr.upstreamErr resp.statusCode resp.rawBody)
    else
      match resp.decoded with
      | Except.error e => Except.error (LLMErr.decodeErr e)
      | Except.ok cr =>
        match cr.choices with
        | [] => Except.error LLMErr.emptyChoices
        | c :: _ => Except.ok c.message.content

-- --- HTTP model ---

/-- A response body: `plain` from `http.Error` (text/plain), `json` from
`writeJSON` (the marshalled value, kept structured). -/
inductive RespBody where
  | plain (s : String) : RespBody
  | json (v : Jval) : RespBody

structure HttpResponse where
  status : Nat
  body : RespBody

/-- `http.Error(w, msg, code)`: plain-text body `msg` plus a newline. -/
def httpError (msg : String) (code : Nat) : HttpResponse :=
  { status := code, body := RespBody.plain (msg ++ "\n") }

/-- `writeJSON` (main.go 360-366): JSON body with the given status. -/
def writeJSON (status : Nat) (v : Jval) : HttpResponse :=
  { status := status, body := RespBody.json v }

/-- Result of `json.NewDecoder(r.Body).Decode(&req)` on the request body:
`malformed` when it returns an error, `decoded` otherwise (a missing field
leaves the Go zero value `""`). -/
inductive DecodeResult (α : Type) where
  | malformed : DecodeResult α
  | decoded (a : α) : DecodeResult α

/-- An inbound HTTP request: its method and the decode outcome of its body. -/
structure Request (α : Type) where
  method : String
  body : DecodeResult α

/-- `withMethod` (main.go 368-376): reject a mismatched method with 405. -/
def withMethod {α : Type} (method : String) (h : Request α → HttpResponse)
    (r : Request α) : HttpResponse :=
  if r.method ≠ method then httpError "method not allowed" 405
  else h r

-- --- Endpoint handlers (main.go 117-311) ---

/-- Prompt built by `summarizeHandler` (main.go 129). -/
def summarizePrompt (text : String) : String :=
  "Summarize the following text in 3–5 bullet points. Be concise and clear.\n\n" ++ text

/-- Prompt built by `keywordsHandler` (main.go 154-158, raw string). -/
def keywordsPrompt (text : String) : String :=
  "Extract 5–10 key keywords from the text below.\nReturn ONLY a JSON array of strings. Example: [\"keyword1\",\"keyword2\"].\n\nText:\n" ++ text

/-- Prompt built by `rewriteHandler` (main.go 194-197, `fmt.Sprintf`). -/
def rewritePrompt (tone text : String) : String :=
  "Rewrite the following text in a " ++ tone ++
    " tone. Preserve the original meaning. Respond with ONLY the rewritten text.\n\n" ++ text

/-- Prompt built by `questionsHandler` (main.go 223-227, raw string). -/
def questionsPrompt (text : String) : String :=
  "From the text below, generate 5–10 clear, helpful questions.\nReturn ONLY a JSON array of strings. Example: [\"Question 1?\", \"Question 2?\"].\n\nText:\n" ++ text

/-- Prompt built by `titlesHandler` (main.go 259-263, raw string). -/
def titlesPrompt (text : String) : String :=
  "Generate 5 concise, engaging title ideas for the text below.\nReturn ONLY a JSON array of strings. Example: [\"Title 1\", \"Title 2\"].\n\nText:\n" ++ text

/-- Prompt built by `expandHandler` (main.go 294-299, raw string). -/
def expandPrompt (text : String) : String :=
  "Expand and elaborate on the following text.\nAdd helpful explanations and details but keep it clear and readable.\nRespond with ONLY the expanded text.\n\nText:\n" ++ text

/-- `summarizeHandler` (main.go 117-140). -/
def summarizeHandler (apiKey : String) (net : Net) (r : Request TextRequest) :
    HttpResponse :=
  match r.body with
  | DecodeResult.malformed => httpError "invalid JSON body" 400
  | DecodeResult.decoded req =>
    if req.text = "" then httpError "`text` is required" 400
    else
      match callLLM apiKey (summarizePrompt req.text) net with
      | Except.error _ => httpError "LLM error" 500
      | Except.ok out => writeJSON 200 (SummarizeResponse.mk out).toJson

/-- `keywordsHandler` (main.go 142-176): parse the reply into a string
slice, falling back to the one-element slice `[out]` when `json.Unmarshal`
errors. -/
def keywordsHandler (apiKey : String) (net : Net) (r : Request TextRequest) :
    HttpResponse :=
  match r.body with
  | DecodeResult.malformed => httpError "invalid JSON body" 400
  | DecodeResult.decoded req =>
    if req.text = "" then httpError "`text` is required" 400
    else
      match callLLM apiKey (keywordsPrompt req.text) net with
      | Except.error _ => httpError "LLM error" 500
      | Except.ok out =>
        let kws : Option (List String) :=
          match unmarshalStringList out with
          | Except.error _ => some [out]
          | Except.ok v => v
        writeJSON 200 (KeywordsResponse.mk kws).toJson

/-- `rewriteHandler` (main.go 178-209): an empty `tone` defaults to
"neutral". -/
def rewriteHandler (apiKey : String) (net : Net) (r : Request RewriteRequest) :
    HttpResponse :=
  match r.body with
  | DecodeResult.malformed => httpError "invalid JSON body" 400
  | DecodeResult.decoded req =>
    if req.text = "" then httpError "`text` is required" 400
    else
      let tone := if req.tone = "" then "neutral" else req.tone
      match callLLM apiKey (rewritePrompt tone req.text) net with
      | Except.error _ => httpError "LLM error" 500
      | Except.ok out => writeJSON 200 (RewriteResponse.mk out).toJson

/-- `questionsHandler` (main.go 211-245). -/
def questionsHandler (apiKey : String) (net : Net) (r : Request TextRequest) :
    HttpResponse :=
  match r.body with
  | DecodeResult.malformed => httpError "invalid JSON body" 400
  | DecodeResult.decoded req =>
    if req.text = "" then httpError "`text` is required" 400
    else
      match callLLM apiKey (questionsPrompt req.text) net with
      | Except.error _ => httpError "LLM error" 500
      | Except.ok out =>
        let qs : Option (List String) :=
          match unmarshalStringList out with
          | Except.error _ => some [out]
          | Except.ok v => v
        writeJSON 200 (QuestionsResponse.mk qs).toJson

/-- `titlesHandler` (main.go 247-280). -/
def titlesHandler (apiKey : String) (net : Net) (r : Request TextRequest) :
    HttpResponse :=
  match r.body with
  | DecodeResult.malformed => httpError "invalid JSON body" 400
  | DecodeResult.decoded req =>
    if req.text = "" then httpError "`text` is required" 400
    else
      match callLLM apiKey (titlesPrompt req.text) net with
      | Except.error _ => httpError "LLM error" 500
      | Except.ok out =>
        let titles : Option (List String) :=
          match unmarshalStringList out with
          | Except.error _ => some [out]
          | Except.ok v => v
        writeJSON 200 (TitlesResponse.mk titles).toJson

/-- `expandHandler` (main.go 282-311). -/
def expandHandler (apiKey : String) (net : Net) (r : Request TextRequest) :
    HttpResponse :=
  match r.body with
  | DecodeResult.malformed => httpError "invalid JSON body" 400
  | DecodeResult.decoded req =>
    if req.text = "" then httpError "`text` is required" 400
    else
      match callLLM apiKey (expandPrompt req.text) net with
      | Except.error _ => httpError "LLM error" 500
      | Except.ok out => writeJSON 200 (ExpandResponse.mk out).toJson

-- --- Routing (main.go 84-89): each endpoint wrapped in withMethod "POST" ---

def summarizeEndpoint (apiKey : String) (net : Net) : Request TextRequest → HttpResponse :=
  withMethod "POST" (summarizeHandler apiKey net)

def keywordsEndpoint (apiKey : String) (net : Net) : Request TextRequest → HttpResponse :=
  withMethod "POST" (keywordsHandler apiKey net)

def rewriteEndpoint (apiKey : String) (net : Net) : Request RewriteRequest → HttpResponse :=
  withMethod "POST" (rewriteHandler apiKey net)

def questionsEndpoint (apiKey : String) (net : Net) : Request TextRequest → HttpResponse :=
  withMethod "POST" (questionsHandler apiKey net)

def titlesEndpoint (apiKey : String) (net : Net) : Request TextRequest → HttpResponse :=
  withMethod "POST" (titlesHandler apiKey net)

def expandEndpoint (apiKey : String) (net : Net) : Request TextRequest → HttpResponse :=
  withMethod "POST" (expandHandler apiKey net)

-- --- Concrete network behaviours used by closed statements below ---

/-- A network on which every exchange succeeds with one choice whose
message content is `reply`. -/
def netReplying (reply : String) : Net := fun _ =>
  Except.ok
    { statusCode := 200
      rawBody := ""
      decoded :=
        Except.ok { choices := [{ message := { role := "assistant", content := reply } }] } }

/-- A network answering HTTP 101 (an informational status, delivered by the
Go client for protocol switches) with a decodable one-choice body. -/
def net101 : Net := fun _ =>
  Except.ok
    { statusCode := 101
      rawBody := ""
      decoded :=
        Except.ok { choices := [{ message := { role := "assistant", content := "hi" } }] } }

/-- A network answering HTTP 503 with an error body. -/
def net503 : Net := fun _ =>
  Except.ok
    { statusCode := 503
      rawBody := "upstream exploded"
      decoded := Except.error "not json" }

/-- A network that differs from `netReplying "ok"` everywhere except on
requests carrying exactly two messages — in particular it agrees with it on
every request `callLLM` actually builds. -/
def netTwoOnly : Net := fun req =>
  if req.messages.length = 2 then netReplying "ok" req else Except.error "unreached"

-- --- Claims ---

/-- Claim C3: for every one of the six POST endpoints, a request whose body
is malformed JSON, or decodes to an empty or missing `text` field (Go's
zero value), receives HTTP 400; the response is the same for every network
behaviour `net`, so the outbound client is never invoked. -/
theorem invalid_body_yields_400_without_llm_call
    (apiKey : String) (net : Net) (tone : String) :
    (summarizeEndpoint apiKey net { method := "POST", body := DecodeResult.malformed } =
        httpError "invalid JSON body" 400 ∧
      keywordsEndpoint apiKey net { method := "POST", body := DecodeResult.malformed } =
        httpError "invalid JSON body" 400 ∧
      rewriteEndpoint apiKey net { method := "POST", body := DecodeResult.malformed } =
        httpError "invalid JSON body" 400 ∧
      questionsEndpoint apiKey net { method := "POST", body := DecodeResult.malformed } =
        httpError "invalid JSON body" 400 ∧
      titlesEndpoint apiKey net { method := "POST", body := DecodeResult.malformed } =
        httpError "invalid JSON body" 400 ∧
      expandEndpoint apiKey net { method := "POST", body := DecodeResult.malformed } =
        httpError "invalid JSON body" 400) ∧
    (summarizeEndpoint apiKey net { method := "POST", body := DecodeResult.decoded ⟨""⟩ } =
        httpError "`text` is required" 400 ∧
      keywordsEndpoint apiKey net { method := "POST", body := DecodeResult.decoded ⟨""⟩ } =
        httpError "`text` is required" 400 ∧
      rewriteEndpoint apiKey net { method := "POST", body := DecodeResult.decoded ⟨"", tone⟩ } =
        httpError "`text` is required" 400 ∧
      questionsEndpoint apiKey net { method := "POST", body := DecodeResult.decoded ⟨""⟩ } =
        httpError "`text` is required" 400 ∧
      titlesEndpoint apiKey net { method := "POST", body := DecodeResult.decoded ⟨""⟩ } =
        httpError "`text` is required" 400 ∧
      expandEndpoint apiKey net { method := "POST", body := DecodeResult.decoded ⟨""⟩ } =
        httpError "`text` is required" 400) :=
  ⟨⟨rfl, rfl, rfl, rfl, rfl, rfl⟩, rfl, rfl, rfl, rfl, rfl, rfl⟩

/-- Claim C5: for all six endpoints, every request whose method is not POST
receives HTTP 405, regardless of the request body. -/
theorem non_post_gets_405 (m apiKey : String) (net : Net)
    (b : DecodeResult TextRequest) (brw : DecodeResult RewriteRequest)
    (hm : m ≠ "POST") :
    summarizeEndpoint apiKey net { method := m, body := b } =
      httpError "method not allowed" 405 ∧
    keywordsEndpoint apiKey net { method := m, body := b } =
      httpError "method not allowed" 405 ∧
    rewriteEndpoint apiKey net { method := m, body := brw } =
      httpError "method not allowed" 405 ∧
    questionsEndpoint apiKey net { method := m, body := b } =
      httpError "method not allowed" 405 ∧
    titlesEndpoint apiKey net { method := m, body := b } =
      httpError "method not allowed" 405 ∧
    expandEndpoint apiKey net { method := m, body := b } =
      httpError "method not allowed" 405 := by
  refine ⟨?_, ?_, ?_, ?_, ?_, ?_⟩ <;>
    simp [summarizeEndpoint, keywordsEndpoint, rewriteEndpoint, questionsEndpoint,
      titlesEndpoint, expandEndpoint, withMethod, hm]

/-- Witness for C5 at method "GET". -/
theorem non_post_gets_405_witness :
    ("GET" : String) ≠ "POST" ∧
    summarizeEndpoint "k" (netReplying "x")
        { method := "GET", body := DecodeResult.malformed } =
      httpError "method not allowed" 405 ∧
    keywordsEndpoint "k" (netReplying "x")
        { method := "GET", body := DecodeResult.malformed } =
      httpError "method not allowed" 405 ∧
    rewriteEndpoint "k" (netReplying "x")
        { method := "GET", body := DecodeResult.malformed } =
      httpError "method not allowed" 405 ∧
    questionsEndpoint "k" (netReplying "x")
        { method := "GET", body := DecodeResult.malformed } =
      httpError "method not allowed" 405 ∧
    titlesEndpoint "k" (netReplying "x")
        { method := "GET", body := DecodeResult.malformed } =
      httpError "method not allowed" 405 ∧
    expandEndpoint "k" (netReplying "x")
        { method := "GET", body := DecodeResult.malformed } =
      httpError "method not allowed" 405 :=
  ⟨by decide,
   non_post_gets_405 "GET" "k" (netReplying "x") DecodeResult.malformed
     DecodeResult.malformed (by decide)⟩

/-- Claim C7: a POST to /rewrite with an empty (or absent, which decodes to
empty) `tone` field behaves exactly like one with `tone` set to "neutral":
the handler computes the same effective tone, hence the same prompt and the
same response, for every text and every network behaviour. -/
theorem rewrite_tone_defaults_to_neutral (apiKey t : String) (net : Net) :
    rewriteEndpoint apiKey net
        { method := "POST", body := DecodeResult.decoded ⟨t, ""⟩ } =
      rewriteEndpoint apiKey net
        { method := "POST", body := DecodeResult.decoded ⟨t, "neutral"⟩ } := rfl

/-- Claim C10: on the reply "null", `json.Unmarshal` into a string slice
succeeds with the nil slice, so each list-shaped endpoint responds 200 with
its list field marshalled as JSON `null` — neither a parsed array nor the
single-element raw-text fallback — although the upstream call succeeded and
the reply "null" is non-empty. -/
theorem null_reply_yields_null_field :
    callLLM "k" (keywordsPrompt "hi") (netReplying "null") = Except.ok "null" ∧
    ("null" : String) ≠ "" ∧
    unmarshalStringList "null" = Except.ok none ∧
    keywordsEndpoint "k" (netReplying "null")
        { method := "POST", body := DecodeResult.decoded ⟨"hi"⟩ } =
      writeJSON 200 (Jval.obj [("keywords", Jval.null)]) ∧
    questionsEndpoint "k" (netReplying "null")
        { method := "POST", body := DecodeResult.decoded ⟨"hi"⟩ } =
      writeJSON 200 (Jval.obj [("questions", Jval.null)]) ∧
    titlesEndpoint "k" (netReplying "null")
        { method := "POST", body := DecodeResult.decoded ⟨"hi"⟩ } =
      writeJSON 200 (Jval.obj [("titles", Jval.null)]) :=
  ⟨rfl, by decide, rfl, rfl, rfl, rfl⟩

/-- Counterexample to claim C2 as stated: the reply "null" does not parse
as a JSON array of strings (unmarshalling yields the nil slice, not an
array), yet the keywords endpoint does not return the single-element
fallback `["null"]` — it returns a `null` keywords field. -/
theorem list_fallback_misses_null_reply :
    callLLM "k" (keywordsPrompt "hi") (netReplying "null") = Except.ok "null" ∧
    unmarshalStringList "null" = Except.ok none ∧
    keywordsEndpoint "k" (netReplying "null")
        { method := "POST", body := DecodeResult.decoded ⟨"hi"⟩ } ≠
      writeJSON 200 (Jval.obj [("keywords", Jval.arr [Jval.str "null"])]) := by
  refine ⟨rfl, rfl, ?_⟩
  rw [show keywordsEndpoint "k" (netReplying "null")
        { method := "POST", body := DecodeResult.decoded ⟨"hi"⟩ } =
      writeJSON 200 (Jval.obj [("keywords", Jval.null)]) from rfl]
  simp [writeJSON]

/-- Counterexample to claim C4 as stated: HTTP status 101 is not a 2xx/3xx
status, yet `callLLM` does not fail with an upstream error there — the code
only treats statuses ≥ 400 as failures, so a decodable 101 response
succeeds. -/
theorem callLLM_101_not_upstream_error :
    (101 : Nat) < 200 ∧ callLLM "k" "p" net101 = Except.ok "hi" :=
  ⟨by decide, rfl⟩

/-- Claim C1: for each list-shaped endpoint, when the request is valid with
non-empty text and the outbound client's reply unmarshals as a JSON array
of strings, the endpoint responds 200 with its list field equal to exactly
that array, in order. -/
theorem list_endpoints_return_parsed_array :
    (∀ (apiKey : String) (net : Net) (t reply : String) (xs : List String),
      t ≠ "" →
      callLLM apiKey (keywordsPrompt t) net = Except.ok reply →
      unmarshalStringList reply = Except.ok (some xs) →
      keywordsEndpoint apiKey net { method := "POST", body := DecodeResult.decoded ⟨t⟩ } =
        writeJSON 200 (Jval.obj [("keywords", Jval.arr (xs.map Jval.str))])) ∧
    (∀ (apiKey : String) (net : Net) (t reply : String) (xs : List String),
      t ≠ "" →
      callLLM apiKey (questionsPrompt t) net = Except.ok reply →
      unmarshalStringList reply = Except.ok (some xs) →
      questionsEndpoint apiKey net { method := "POST", body := DecodeResult.decoded ⟨t⟩ } =
        writeJSON 200 (Jval.obj [("questions", Jval.arr (xs.map Jval.str))])) ∧
    (∀ (apiKey : String) (net : Net) (t reply : String) (xs : List String),
      t ≠ "" →
      callLLM apiKey (titlesPrompt t) net = Except.ok reply →
      unmarshalStringList reply = Except.ok (some xs) →
      titlesEndpoint apiKey net { method := "POST", body := DecodeResult.decoded ⟨t⟩ } =
        writeJSON 200 (Jval.obj [("titles", Jval.arr (xs.map Jval.str))])) := by
  refine ⟨?_, ?_, ?_⟩ <;>
  · intro apiKey net t reply xs ht hcall hum
    simp [keywordsEndpoint, questionsEndpoint, titlesEndpoint, withMethod,
      keywordsHandler, questionsHandler, titlesHandler, ht, hcall, hum,
      KeywordsResponse.toJson, QuestionsResponse.toJson, TitlesResponse.toJson,
      goStrSliceJson, writeJSON]

/-- Witness for C1 on the reply `["a","b"]`. -/
theorem list_endpoints_return_parsed_array_witness :
    ("hi" : String) ≠ "" ∧
    callLLM "k" (keywordsPrompt "hi") (netReplying "[\"a\",\"b\"]") =
      Except.ok "[\"a\",\"b\"]" ∧
    unmarshalStringList "[\"a\",\"b\"]" = Except.ok (some ["a", "b"]) ∧
    keywordsEndpoint "k" (netReplying "[\"a\",\"b\"]")
        { method := "POST", body := DecodeResult.decoded ⟨"hi"⟩ } =
      writeJSON 200 (Jval.obj [("keywords", Jval.arr (["a", "b"].map Jval.str))]) :=
  ⟨by decide, rfl, rfl,
    list_endpoints_return_parsed_array.1 "k" (netReplying "[\"a\",\"b\"]") "hi"
      "[\"a\",\"b\"]" ["a", "b"] (by decide) rfl rfl⟩

/-- Claim C2 (amended): for each list-shaped endpoint, when the request is
valid with non-empty text and the outbound client returns a reply on which
`json.Unmarshal` into a string slice fails — rather than: a reply that
does not parse as a JSON array of strings, since the reply "null"
unmarshals successfully without being an array — the endpoint responds 200
with the single-element list holding the raw reply verbatim. -/
theorem list_endpoints_fallback_on_unmarshal_error :
    (∀ (apiKey : String) (net : Net) (t reply : String),
      t ≠ "" →
      callLLM apiKey (keywordsPrompt t) net = Except.ok reply →
      unmarshalStringList reply = Except.error () →
      keywordsEndpoint apiKey net { method := "POST", body := DecodeResult.decoded ⟨t⟩ } =
        writeJSON 200 (Jval.obj [("keywords", Jval.arr [Jval.str reply])])) ∧
    (∀ (apiKey : String) (net : Net) (t reply : String),
      t ≠ "" →
      callLLM apiKey (questionsPrompt t) net = Except.ok reply →
      unmarshalStringList reply = Except.error () →
      questionsEndpoint apiKey net { method := "POST", body := DecodeResult.decoded ⟨t⟩ } =
        writeJSON 200 (Jval.obj [("questions", Jval.arr [Jval.str reply])])) ∧
    (∀ (apiKey : String) (net : Net) (t reply : String),
      t ≠ "" →
      callLLM apiKey (titlesPrompt t) net = Except.ok reply →
      unmarshalStringList reply = Except.error () →
      titlesEndpoint apiKey net { method := "POST", body := DecodeResult.decoded ⟨t⟩ } =
        writeJSON 200 (Jval.obj [("titles", Jval.arr [Jval.str reply])])) := by
  refine ⟨?_, ?_, ?_⟩ <;>
  · intro apiKey net t reply ht hcall hum
    simp [keywordsEndpoint, questionsEndpoint, titlesEndpoint, withMethod,
      keywordsHandler, questionsHandler, titlesHandler, ht, hcall, hum,
      KeywordsResponse.toJson, QuestionsResponse.toJson, TitlesResponse.toJson,
      goStrSliceJson, writeJSON]

/-- Witness for the amended C2 on the non-JSON reply "one two three". -/
theorem list_endpoints_fallback_on_unmarshal_error_witness :
    ("hi" : String) ≠ "" ∧
    callLLM "k" (keywordsPrompt "hi") (netReplying "one two three") =
      Except.ok "one two three" ∧
    unmarshalStringList "one two three" = Except.error () ∧
    keywordsEndpoint "k" (netReplying "one two three")
        { method := "POST", body := DecodeResult.decoded ⟨"hi"⟩ } =
      writeJSON 200 (Jval.obj [("keywords", Jval.arr [Jval.str "one two three"])]) :=
  ⟨by decide, rfl, rfl,
    list_endpoints_fallback_on_unmarshal_error.1 "k" (netReplying "one two three")
      "hi" "one two three" (by decide) rfl rfl⟩

/-- Claim C4 (amended): given a delivered upstream response, `callLLM`
fails with the upstream error carrying the status code and body text
exactly when the status is ≥ 400 — rather than: non-2xx/3xx, since
statuses below 200 are treated like successes; on a status < 400 it fails
with the decode error when the body does not decode, with the
empty-response error when the choice list is empty, and otherwise returns
the first choice's message content. -/
theorem callLLM_error_taxonomy (apiKey prompt : String) (net : Net)
    (st : Nat) (raw : String) (dec : Except String ChatResponse)
    (h : net (buildChatRequest prompt) =
      Except.ok { statusCode := st, rawBody := raw, decoded := dec }) :
    (callLLM apiKey prompt net = Except.error (LLMErr.upstreamErr st raw) ↔ 400 ≤ st) ∧
    (∀ e, st < 400 → dec = Except.error e →
      callLLM apiKey prompt net = Except.error (LLMErr.decodeErr e)) ∧
    (∀ cr, st < 400 → dec = Except.ok cr → cr.choices = [] →
      callLLM apiKey prompt net = Except.error LLMErr.emptyChoices) ∧
    (∀ cr c rest, st < 400 → dec = Except.ok cr → cr.choices = c :: rest →
      callLLM apiKey prompt net = Except.ok c.message.content) := by
  have key : callLLM apiKey prompt net =
      (if 400 ≤ st then Except.error (LLMErr.upstreamErr st raw)
       else
        match dec with
        | Except.error e => Except.error (LLMErr.decodeErr e)
        | Except.ok cr =>
          match cr.choices with
          | [] => Except.error LLMErr.emptyChoices
          | c :: _ => Except.ok c.message.content) := by
    unfold callLLM
    rw [h]
  by_cases h4 : 400 ≤ st
  · rw [if_pos h4] at key
    exact ⟨⟨fun _ => h4, fun _ => key⟩,
      fun e hlt _ => absurd h4 (by omega),
      fun cr hlt _ _ => absurd h4 (by omega),
      fun cr c rest hlt _ _ => absurd h4 (by omega)⟩
  · rw [if_neg h4] at key
    refine ⟨⟨fun hres => ?_, fun h400 => absurd h400 h4⟩, ?_, ?_, ?_⟩
    · exfalso
      rw [key] at hres
      rcases dec with e | ⟨chs⟩
      · simp at hres
      · rcases chs with _ | ⟨c, rest⟩ <;> simp at hres
    · intro e hlt hde
      rw [key, hde]
    · intro cr hlt hde hch
      rw [key, hde]
      simp [hch]
    · intro cr c rest hlt hde hch
      rw [key, hde]
      simp [hch]

/-- Witness for the amended C4 on an HTTP 503 response. -/
theorem callLLM_error_taxonomy_witness :
    net503 (buildChatRequest "p") =
      Except.ok { statusCode := 503, rawBody := "upstream exploded",
                  decoded := Except.error "not json" } ∧
    (callLLM "k" "p" net503 =
        Except.error (LLMErr.upstreamErr 503 "upstream exploded") ↔ 400 ≤ 503) :=
  ⟨rfl,
    (callLLM_error_taxonomy "k" "p" net503 503 "upstream exploded"
      (Except.error "not json") rfl).1⟩

/-- Claim C6: whenever the outbound client fails — whatever the error
value, including an upstream error embedding the status and body text —
each of the six endpoints responds 500 with the fixed body "LLM error"
(plus the newline `http.Error` appends), which carries nothing of the
internal error; consequently two runs whose upstream failures differ
arbitrarily produce identical client-visible responses. -/
theorem upstream_failure_opaque_500 :
    (∀ (apiKey : String) (net : Net) (t : String) (e : LLMErr), t ≠ "" →
      callLLM apiKey (summarizePrompt t) net = Except.error e →
      summarizeEndpoint apiKey net { method := "POST", body := DecodeResult.decoded ⟨t⟩ } =
        httpError "LLM error" 500) ∧
    (∀ (apiKey : String) (net : Net) (t : String) (e : LLMErr), t ≠ "" →
      callLLM apiKey (keywordsPrompt t) net = Except.error e →
      keywordsEndpoint apiKey net { method := "POST", body := DecodeResult.decoded ⟨t⟩ } =
        httpError "LLM error" 500) ∧
    (∀ (apiKey : String) (net : Net) (t tone : String) (e : LLMErr), t ≠ "" →
      callLLM apiKey (rewritePrompt (if tone = "" then "neutral" else tone) t) net =
        Except.error e →
      rewriteEndpoint apiKey net { method := "POST", body := DecodeResult.decoded ⟨t, tone⟩ } =
        httpError "LLM error" 500) ∧
    (∀ (apiKey : String) (net : Net) (t : String) (e : LLMErr), t ≠ "" →
      callLLM apiKey (questionsPrompt t) net = Except.error e →
      questionsEndpoint apiKey net { method := "POST", body := DecodeResult.decoded ⟨t⟩ } =
        httpError "LLM error" 500) ∧
    (∀ (apiKey : String) (net : Net) (t : String) (e : LLMErr), t ≠ "" →
      callLLM apiKey (titlesPrompt t) net = Except.error e →
      titlesEndpoint apiKey net { method := "POST", body := DecodeResult.decoded ⟨t⟩ } =
        httpError "LLM error" 500) ∧
    (∀ (apiKey : String) (net : Net) (t : String) (e : LLMErr), t ≠ "" →
      callLLM apiKey (expandPrompt t) net = Except.error e →
      expandEndpoint apiKey net { method := "POST", body := DecodeResult.decoded ⟨t⟩ } =
        httpError "LLM error" 500) ∧
    (∀ (apiKey : String) (net₁ net₂ : Net) (t : String) (e₁ e₂ : LLMErr), t ≠ "" →
      callLLM apiKey (summarizePrompt t) net₁ = Except.error e₁ →
      callLLM apiKey (summarizePrompt t) net₂ = Except.error e₂ →
      summarizeEndpoint apiKey net₁ { method := "POST", body := DecodeResult.decoded ⟨t⟩ } =
        summarizeEndpoint apiKey net₂ { method := "POST", body := DecodeResult.decoded ⟨t⟩ }) ∧
    (∀ (apiKey : String) (net₁ net₂ : Net) (t : String) (e₁ e₂ : LLMErr), t ≠ "" →
      callLLM apiKey (keywordsPrompt t) net₁ = Except.error e₁ →
      callLLM apiKey (keywordsPrompt t) net₂ = Except.error e₂ →
      keywordsEndpoint apiKey net₁ { method := "POST", body := DecodeResult.decoded ⟨t⟩ } =
        keywordsEndpoint apiKey net₂ { method := "POST", body := DecodeResult.decoded ⟨t⟩ }) ∧
    (∀ (apiKey : String) (net₁ net₂ : Net) (t tone : String) (e₁ e₂ : LLMErr), t ≠ "" →
      callLLM apiKey (rewritePrompt (if tone = "" then "neutral" else tone) t) net₁ =
        Except.error e₁ →
      callLLM apiKey (rewritePrompt (if tone = "" then "neutral" else tone) t) net₂ =
        Except.error e₂ →
      rewriteEndpoint apiKey net₁ { method := "POST", body := DecodeResult.decoded ⟨t, tone⟩ } =
        rewriteEndpoint apiKey net₂ { method := "POST", body := DecodeResult.decoded ⟨t, tone⟩ }) ∧
    (∀ (apiKey : String) (net₁ net₂ : Net) (t : String) (e₁ e₂ : LLMErr), t ≠ "" →
      callLLM apiKey (questionsPrompt t) net₁ = Except.error e₁ →
      callLLM apiKey (questionsPrompt t) net₂ = Except.error e₂ →
      questionsEndpoint apiKey net₁ { method := "POST", body := DecodeResult.decoded ⟨t⟩ } =
        questionsEndpoint apiKey net₂ { method := "POST", body := DecodeResult.decoded ⟨t⟩ }) ∧
    (∀ (apiKey : String) (net₁ net₂ : Net) (t : String) (e₁ e₂ : LLMErr), t ≠ "" →
      callLLM apiKey (titlesPrompt t) net₁ = Except.error e₁ →
      callLLM apiKey (titlesPrompt t) net₂ = Except.error e₂ →
      titlesEndpoint apiKey net₁ { method := "POST", body := DecodeResult.decoded ⟨t⟩ } =
        titlesEndpoint apiKey net₂ { method := "POST", body := DecodeResult.decoded ⟨t⟩ }) ∧
    (∀ (apiKey : String) (net₁ net₂ : Net) (t : String) (e₁ e₂ : LLMErr), t ≠ "" →
      callLLM apiKey (expandPrompt t) net₁ = Except.error e₁ →
      callLLM apiKey (expandPrompt t) net₂ = Except.error e₂ →
      expandEndpoint apiKey net₁ { method := "POST", body := DecodeResult.decoded ⟨t⟩ } =
        expandEndpoint apiKey net₂ { method := "POST", body := DecodeResult.decoded ⟨t⟩ }) := by
  have hs : ∀ (apiKey : String) (net : Net) (t : String) (e : LLMErr), t ≠ "" →
      callLLM apiKey (summarizePrompt t) net = Except.error e →
      summarizeEndpoint apiKey net { method := "POST", body := DecodeResult.decoded ⟨t⟩ } =
        httpError "LLM error" 500 := by
    intro apiKey net t e ht hcall
    simp [summarizeEndpoint, withMethod, summarizeHandler, ht, hcall]
  have hk : ∀ (apiKey : String) (net : Net) (t : String) (e : LLMErr), t ≠ "" →
      callLLM apiKey (keywordsPrompt t) net = Except.error e →
      keywordsEndpoint apiKey net { method := "POST", body := DecodeResult.decoded ⟨t⟩ } =
        httpError "LLM error" 500 := by
    intro apiKey net t e ht hcall
    simp [keywordsEndpoint, withMethod, keywordsHandler, ht, hcall]
  have hr : ∀ (apiKey : String) (net : Net) (t tone : String) (e : LLMErr), t ≠ "" →
      callLLM apiKey (rewritePrompt (if tone = "" then "neutral" else tone) t) net =
        Except.error e →
      rewriteEndpoint apiKey net { method := "POST", body := DecodeResult.decoded ⟨t, tone⟩ } =
        httpError "LLM error" 500 := by
    intro apiKey net t tone e ht hcall
    simp [rewriteEndpoint, withMethod, rewriteHandler, ht, hcall]
  have hq : ∀ (apiKey : String) (net : Net) (t : String) (e : LLMErr), t ≠ "" →
      callLLM apiKey (questionsPrompt t) net = Except.error e →
      questionsEndpoint apiKey net { method := "POST", body := DecodeResult.decoded ⟨t⟩ } =
        httpError "LLM error" 500 := by
    intro apiKey net t e ht hcall
    simp [questionsEndpoint, withMethod, questionsHandler, ht, hcall]
  have hti : ∀ (apiKey : String) (net : Net) (t : String) (e : LLMErr), t ≠ "" →
      callLLM apiKey (titlesPrompt t) net = Except.error e →
      titlesEndpoint apiKey net { method := "POST", body := DecodeResult.decoded ⟨t⟩ } =
        httpError "LLM error" 500 := by
    intro apiKey net t e ht hcall
    simp [titlesEndpoint, withMethod, titlesHandler, ht, hcall]
  have hex : ∀ (apiKey : String) (net : Net) (t : String) (e : LLMErr), t ≠ "" →
      callLLM apiKey (expandPrompt t) net = Except.error e →
      expandEndpoint apiKey net { method := "POST", body := DecodeResult.decoded ⟨t⟩ } =
        httpError "LLM error" 500 := by
    intro apiKey net t e ht hcall
    simp [expandEndpoint, withMethod, expandHandler, ht, hcall]
  refine ⟨hs, hk, hr, hq, hti, hex, ?_, ?_, ?_, ?_, ?_, ?_⟩
  · intro apiKey net₁ net₂ t e₁ e₂ ht h1 h2
    rw [hs apiKey net₁ t e₁ ht h1, hs apiKey net₂ t e₂ ht h2]
  · intro apiKey net₁ net₂ t e₁ e₂ ht h1 h2
    rw [hk apiKey net₁ t e₁ ht h1, hk apiKey net₂ t e₂ ht h2]
  · intro apiKey net₁ net₂ t tone e₁ e₂ ht h1 h2
    rw [hr apiKey net₁ t tone e₁ ht h1, hr apiKey net₂ t tone e₂ ht h2]
  · intro apiKey net₁ net₂ t e₁ e₂ ht h1 h2
    rw [hq apiKey net₁ t e₁ ht h1, hq apiKey net₂ t e₂ ht h2]
  · intro apiKey net₁ net₂ t e₁ e₂ ht h1 h2
    rw [hti apiKey net₁ t e₁ ht h1, hti apiKey net₂ t e₂ ht h2]
  · intro apiKey net₁ net₂ t e₁ e₂ ht h1 h2
    rw [hex apiKey net₁ t e₁ ht h1, hex apiKey net₂ t e₂ ht h2]

/-- Witness for C6 on an HTTP 503 upstream failure. -/
theorem upstream_failure_opaque_500_witness :
    ("hi" : String) ≠ "" ∧
    callLLM "k" (summarizePrompt "hi") net503 =
      Except.error (LLMErr.upstreamErr 503 "upstream exploded") ∧
    summarizeEndpoint "k" net503 { method := "POST", body := DecodeResult.decoded ⟨"hi"⟩ } =
      httpError "LLM error" 500 :=
  ⟨by decide, rfl,
    upstream_failure_opaque_500.1 "k" net503 "hi"
      (LLMErr.upstreamErr 503 "upstream exploded") (by decide) rfl⟩

/-- Claim C8: every chat request `callLLM` builds holds exactly two ordered
messages — the fixed system message then one user message equal to the
prompt — each endpoint's prompt is its literal template with the text (and,
for rewrite, the effective tone) substituted, and each endpoint consults
the network only at that one built request. -/
theorem chat_request_two_messages :
    (∀ p : String, (buildChatRequest p).messages =
      [{ role := "system", content := "You are a helpful text-processing assistant." },
       { role := "user", content := p }]) ∧
    (∀ t : String, summarizePrompt t =
      "Summarize the following text in 3–5 bullet points. Be concise and clear.\n\n" ++ t) ∧
    (∀ t : String, keywordsPrompt t =
      "Extract 5–10 key keywords from the text below.\nReturn ONLY a JSON array of strings. Example: [\"keyword1\",\"keyword2\"].\n\nText:\n" ++ t) ∧
    (∀ tone t : String, rewritePrompt tone t =
      "Rewrite the following text in a " ++ tone ++
        " tone. Preserve the original meaning. Respond with ONLY the rewritten text.\n\n" ++ t) ∧
    (∀ t : String, questionsPrompt t =
      "From the text below, generate 5–10 clear, helpful questions.\nReturn ONLY a JSON array of strings. Example: [\"Question 1?\", \"Question 2?\"].\n\nText:\n" ++ t) ∧
    (∀ t : String, titlesPrompt t =
      "Generate 5 concise, engaging title ideas for the text below.\nReturn ONLY a JSON array of strings. Example: [\"Title 1\", \"Title 2\"].\n\nText:\n" ++ t) ∧
    (∀ t : String, expandPrompt t =
      "Expand and elaborate on the following text.\nAdd helpful explanations and details but keep it clear and readable.\nRespond with ONLY the expanded text.\n\nText:\n" ++ t) ∧
    (∀ (apiKey : String) (net₁ net₂ : Net) (t : String),
      net₁ (buildChatRequest (summarizePrompt t)) =
        net₂ (buildChatRequest (summarizePrompt t)) →
      summarizeEndpoint apiKey net₁ { method := "POST", body := DecodeResult.decoded ⟨t⟩ } =
        summarizeEndpoint apiKey net₂ { method := "POST", body := DecodeResult.decoded ⟨t⟩ }) ∧
    (∀ (apiKey : String) (net₁ net₂ : Net) (t : String),
      net₁ (buildChatRequest (keywordsPrompt t)) =
        net₂ (buildChatRequest (keywordsPrompt t)) →
      keywordsEndpoint apiKey net₁ { method := "POST", body := DecodeResult.decoded ⟨t⟩ } =
        keywordsEndpoint apiKey net₂ { method := "POST", body := DecodeResult.decoded ⟨t⟩ }) ∧
    (∀ (apiKey : String) (net₁ net₂ : Net) (t tone : String),
      net₁ (buildChatRequest (rewritePrompt (if tone = "" then "neutral" else tone) t)) =
        net₂ (buildChatRequest (rewritePrompt (if tone = "" then "neutral" else tone) t)) →
      rewriteEndpoint apiKey net₁ { method := "POST", body := DecodeResult.decoded ⟨t, tone⟩ } =
        rewriteEndpoint apiKey net₂ { method := "POST", body := DecodeResult.decoded ⟨t, tone⟩ }) ∧
    (∀ (apiKey : String) (net₁ net₂ : Net) (t : String),
      net₁ (buildChatRequest (questionsPrompt t)) =
        net₂ (buildChatRequest (questionsPrompt t)) →
      questionsEndpoint apiKey net₁ { method := "POST", body := DecodeResult.decoded ⟨t⟩ } =
        questionsEndpoint apiKey net₂ { method := "POST", body := DecodeResult.decoded ⟨t⟩ }) ∧
    (∀ (apiKey : String) (net₁ net₂ : Net) (t : String),
      net₁ (buildChatRequest (titlesPrompt t)) =
        net₂ (buildChatRequest (titlesPrompt t)) →
      titlesEndpoint apiKey net₁ { method := "POST", body := DecodeResult.decoded ⟨t⟩ } =
        titlesEndpoint apiKey net₂ { method := "POST", body := DecodeResult.decoded ⟨t⟩ }) ∧
    (∀ (apiKey : String) (net₁ net₂ : Net) (t : String),
      net₁ (buildChatRequest (expandPrompt t)) =
        net₂ (buildChatRequest (expandPrompt t)) →
      expandEndpoint apiKey net₁ { method := "POST", body := DecodeResult.decoded ⟨t⟩ } =
        expandEndpoint apiKey net₂ { method := "POST", body := DecodeResult.decoded ⟨t⟩ }) := by
  refine ⟨fun p => rfl, fun t => rfl, fun t => rfl, fun tone t => rfl, fun t => rfl,
    fun t => rfl, fun t => rfl, ?_, ?_, ?_, ?_, ?_, ?_⟩
  · intro apiKey net₁ net₂ t hagree
    by_cases ht : t = "" <;>
      simp [summarizeEndpoint, withMethod, summarizeHandler, callLLM, ht, hagree]
  · intro apiKey net₁ net₂ t hagree
    by_cases ht : t = "" <;>
      simp [keywordsEndpoint, withMethod, keywordsHandler, callLLM, ht, hagree]
  · intro apiKey net₁ net₂ t tone hagree
    by_cases ht : t = "" <;>
      simp [rewriteEndpoint, withMethod, rewriteHandler, callLLM, ht, hagree]
  · intro apiKey net₁ net₂ t hagree
    by_cases ht : t = "" <;>
      simp [questionsEndpoint, withMethod, questionsHandler, callLLM, ht, hagree]
  · intro apiKey net₁ net₂ t hagree
    by_cases ht : t = "" <;>
      simp [titlesEndpoint, withMethod, titlesHandler, callLLM, ht, hagree]
  · intro apiKey net₁ net₂ t hagree
    by_cases ht : t = "" <;>
      simp [expandEndpoint, withMethod, expandHandler, callLLM, ht, hagree]

/-- Witness for C8: two networks that agree on the one built request (but
differ elsewhere) give the same endpoint behaviour. -/
theorem chat_request_two_messages_witness :
    netTwoOnly (buildChatRequest (summarizePrompt "hi")) =
      netReplying "ok" (buildChatRequest (summarizePrompt "hi")) ∧
    summarizeEndpoint "k" netTwoOnly
        { method := "POST", body := DecodeResult.decoded ⟨"hi"⟩ } =
      summarizeEndpoint "k" (netReplying "ok")
        { method := "POST", body := DecodeResult.decoded ⟨"hi"⟩ } :=
  ⟨rfl,
    chat_request_two_messages.2.2.2.2.2.2.2.1 "k" netTwoOnly (netReplying "ok") "hi" rfl⟩

/-- Claim C9: for each plain-text endpoint, a valid request with non-empty
text whose outbound call returns reply `s` is answered 200 with the reply
wrapped unmodified: summarize as `{summary: s}`, rewrite and expand as
`{text: s}`. -/
theorem plain_endpoints_wrap_reply :
    (∀ (apiKey : String) (net : Net) (t reply : String), t ≠ "" →
      callLLM apiKey (summarizePrompt t) net = Except.ok reply →
      summarizeEndpoint apiKey net { method := "POST", body := DecodeResult.decoded ⟨t⟩ } =
        writeJSON 200 (Jval.obj [("summary", Jval.str reply)])) ∧
    (∀ (apiKey : String) (net : Net) (t tone reply : String), t ≠ "" →
      callLLM apiKey (rewritePrompt (if tone = "" then "neutral" else tone) t) net =
        Except.ok reply →
      rewriteEndpoint apiKey net { method := "POST", body := DecodeResult.decoded ⟨t, tone⟩ } =
        writeJSON 200 (Jval.obj [("text", Jval.str reply)])) ∧
    (∀ (apiKey : String) (net : Net) (t reply : String), t ≠ "" →
      callLLM apiKey (expandPrompt t) net = Except.ok reply →
      expandEndpoint apiKey net { method := "POST", body := DecodeResult.decoded ⟨t⟩ } =
        writeJSON 200 (Jval.obj [("text", Jval.str reply)])) := by
  refine ⟨?_, ?_, ?_⟩
  · intro apiKey net t reply ht hcall
    simp [summarizeEndpoint, withMethod, summarizeHandler, ht, hcall,
      SummarizeResponse.toJson, writeJSON]
  · intro apiKey net t tone reply ht hcall
    simp [rewriteEndpoint, withMethod, rewriteHandler, ht, hcall,
      RewriteResponse.toJson, writeJSON]
  · intro apiKey net t reply ht hcall
    simp [expandEndpoint, withMethod, expandHandler, ht, hcall,
      ExpandResponse.toJson, writeJSON]

/-- Witness for C9, matching the spec's scenario: text "The sky is blue.",
mocked reply "- Sky is blue", response `{summary: "- Sky is blue"}`. -/
theorem plain_endpoints_wrap_reply_witness :
    ("The sky is blue." : String) ≠ "" ∧
    callLLM "k" (summarizePrompt "The sky is blue.") (netReplying "- Sky is blue") =
      Except.ok "- Sky is blue" ∧
    summarizeEndpoint "k" (netReplying "- Sky is blue")
        { method := "POST", body := DecodeResult.decoded ⟨"The sky is blue."⟩ } =
      writeJSON 200 (Jval.obj [("summary", Jval.str "- Sky is blue")]) :=
  ⟨by decide, rfl,
    plain_endpoints_wrap_reply.1 "k" (netReplying "- Sky is blue")
      "The sky is blue." "- Sky is blue" (by decide) rfl⟩
